import Mathlib

/-!
Verification of the jest-worker thread backend
(`src/packages/jest-worker/src/workers/NodeThreadsWorker.js`).

The JS class `ExperimentalWorker` is embedded as a state machine:

* `WorkerState` holds the only mutable field the claims depend on, the
  `_retries` counter.  In JS the field starts out *undefined* and the
  `this._retries++` in `initialize()` therefore produces `NaN`; the type
  `JSNum` (`nan` or `int n`) together with `Option` (`none` = the field
  was never assigned) captures exactly the values `_retries` can take.
* Side effects (spawning a thread, posting a message, invoking the
  `onProcessStart` / `_onProcessEnd` callbacks, assigning `_retries = 0`)
  are recorded as an explicit `Event` trace.
* `onMessage` can throw (the `default:` branch raises a `TypeError`), so
  the handlers return `Except Thrown`.
* JS error objects and message payloads are modelled as `JSValue`; property
  assignment (`error[key] = v`) is `setProp`, property lookup is `getProp`.
  Both update/read the first matching key, which agrees with JS objects
  (whose keys are unique).

The JS method `initialize()` is named `initWorker` here (`initialize` is a
Lean keyword); `send`, `onMessage`, `onExit` keep their source names.
-/

/-- A JavaScript value, as far as the worker protocol payloads need. -/
inductive JSValue where
  | null
  | undef
  | bool (b : Bool)
  | num (n : Int)
  | str (s : String)
  | obj (fields : List (String × JSValue))

/-- The values the `_retries` field can hold once assigned: a real number
(always a non-negative integer in this program) or `NaN` (the result of
incrementing an undefined field). -/
inductive JSNum where
  | nan
  | int (n : Nat)

/-- `x++` on the `_retries` field: an unassigned (`undefined`) field becomes
`NaN`, `NaN` stays `NaN`, a number is incremented by one. -/
def jsInc : Option JSNum → JSNum
  | none => JSNum.nan
  | some JSNum.nan => JSNum.nan
  | some (JSNum.int n) => JSNum.int (n + 1)

/-- The JS comparison `retries > maxRetries`: false whenever `retries` is
`NaN`, the usual order otherwise. -/
def jsGtNat : JSNum → Nat → Bool
  | JSNum.nan, _ => false
  | JSNum.int n, m => decide (m < n)

/-- The subset of `WorkerOptions` the embedded methods read. -/
structure WorkerOptions where
  maxRetries : Nat
  workerId : Nat
  workerPath : String
  setupArgs : List JSValue

/-- The mutable state of one `ExperimentalWorker`: its `_retries` field
(`none` while the field is still undefined). -/
structure WorkerState where
  retries : Option JSNum

/-- Farm-to-worker messages (`ChildMessage`). -/
inductive ChildMessage where
  | init (workerPath : String) (setupArgs : List JSValue)
  | call (payload : List JSValue)
  | endMsg

/-- Worker-to-farm messages (`ParentMessage`), discriminated by their tag.
`unknown t` stands for any message whose tag `t` is none of the three
recognized ones. -/
inductive ParentMessage where
  | ok (result : JSValue)
  | clientError (kind message stack : String) (extra : JSValue)
  | setupError (kind message stack : String)
  | unknown (tag : Nat)

/-- `true` exactly for the three recognized (terminal) message tags. -/
def ParentMessage.isTerminal : ParentMessage → Bool
  | ParentMessage.unknown _ => false
  | _ => true

/-- Observable effects of the worker methods, in program order:
thread construction, `postMessage`, the `onProcessStart` callback, the
`this._retries = 0` assignment in `send`, and the `_onProcessEnd(error,
result)` callback. -/
inductive Event where
  | spawn
  | post (msg : ChildMessage)
  | processStart
  | retryReset
  | processEnd (error : JSValue) (result : JSValue)

/-- A thrown JS exception (constructor name and message). -/
structure Thrown where
  name : String
  message : String

/-- Property read on a JS object: value of the first matching key. -/
def getProp : List (String × JSValue) → String → Option JSValue
  | [], _ => none
  | p :: ps, key => if p.1 = key then some p.2 else getProp ps key

/-- Property read lifted to a `JSValue` (non-objects have no properties). -/
def getField : JSValue → String → Option JSValue
  | JSValue.obj fields, key => getProp fields key
  | _, _ => none

/-- Property assignment on a JS object: update the existing key in place or
append a fresh one. -/
def setProp : List (String × JSValue) → String → JSValue → List (String × JSValue)
  | [], key, v => [(key, v)]
  | p :: ps, key, v => if p.1 = key then (key, v) :: ps else p :: setProp ps key v

/-- `true` only for the `obj` constructor; models the JS guard
`error != null && typeof error === 'object'` (which excludes `null`,
`undefined` and all primitives). -/
def JSValue.isObjVal : JSValue → Bool
  | JSValue.obj _ => true
  | _ => false

/-- Model of the runtime: the `stack` string V8 attaches to a freshly
constructed error (the claims never inspect its contents). -/
def nativeStack (ctorName message : String) : String :=
  ctorName ++ ": " ++ message

/-- The observable outcomes of `new global[name](message)` for a string
`message`, as the source's CLIENT_ERROR branch performs it:

* `fallbackError` — `global[name]` is not a function (`typeof NativeCtor ===
  'function'` fails), so the code falls back to `Ctor = Error` and builds an
  ordinary error;
* `errorCtor` — `global[name]` is an Error-family constructor: the instance
  carries `name`, `message` and a generated `stack`;
* `plainCtor` — `global[name]` constructs, but the instance is not an error:
  it has no `name`, `message` or `stack` property (e.g. `new Array('m')`);
* `throwsTypeError` — `global[name]` is a function that cannot construct
  from a string message, so `new Ctor(message)` itself throws (e.g.
  `new Symbol('m')`). -/
inductive CtorBehavior where
  | fallbackError
  | errorCtor
  | plainCtor
  | throwsTypeError

/-- Model of the Node global environment: classify `global[name]` by the
behavior of `new global[name](message)`.  The three lists cover a
representative finite collection of globals whose behavior is unambiguous;
every other name is treated as absent from the global object (the fallback
branch), which is exact for all non-global kinds — the ordinary case of a
custom error class name reaching the farm. -/
def ctorBehavior (name : String) : CtorBehavior :=
  if name = "Error" ∨ name = "TypeError" ∨ name = "RangeError" ∨
     name = "ReferenceError" ∨ name = "SyntaxError" ∨ name = "EvalError" ∨
     name = "URIError" then
    CtorBehavior.errorCtor
  else if name = "Array" ∨ name = "Object" ∨ name = "Date" ∨
     name = "RegExp" ∨ name = "Set" ∨ name = "String" ∨ name = "Number" ∨
     name = "Boolean" then
    CtorBehavior.plainCtor
  else if name = "Symbol" ∨ name = "BigInt" ∨ name = "Proxy" ∨
     name = "Promise" ∨ name = "Map" ∨ name = "WeakMap" ∨
     name = "WeakSet" ∨ name = "parseInt" ∨ name = "parseFloat" ∨
     name = "isNaN" ∨ name = "isFinite" then
    CtorBehavior.throwsTypeError
  else
    CtorBehavior.fallbackError

/-- The own/readable properties of a freshly built error instance
`new Ctor(message)` when `Ctor` is an Error-family constructor named
`ctorName` (or the `Error` fallback). -/
def errorInstance (ctorName message : String) : List (String × JSValue) :=
  [("name", JSValue.str ctorName),
   ("message", JSValue.str message),
   ("stack", JSValue.str (nativeStack ctorName message))]

/-- Model of `error = new Ctor(response[2])` (source lines 105-108): the
constructed instance's readable properties, or the exception the `new`
expression throws.  A `plainCtor` instance is modelled as having no
properties relevant to the protocol: real instances (an array, a date) may
carry index or length properties but never `name`, `message` or `stack`,
so property reads agree with the runtime on every key the handler and the
claims touch.  The thrown message text is modelled canonically as
`'<kind> is not a constructor'` (the exact V8 wording varies by global). -/
def constructInstance (kind message : String) :
    Except Thrown (List (String × JSValue)) :=
  match ctorBehavior kind with
  | CtorBehavior.fallbackError => Except.ok (errorInstance "Error" message)
  | CtorBehavior.errorCtor => Except.ok (errorInstance kind message)
  | CtorBehavior.plainCtor => Except.ok []
  | CtorBehavior.throwsTypeError =>
    Except.error ⟨"TypeError", kind ++ " is not a constructor"⟩

/-- The assignments the CLIENT_ERROR branch performs on the constructed
instance (source lines 110-116): `.type = kind`, then `.stack = stack`, then
copy every extra field (the `for (const key in extra)` loop), each later
assignment overwriting earlier ones. -/
def assembleError (inst : List (String × JSValue)) (kind stack : String)
    (extra : List (String × JSValue)) : JSValue :=
  let withType := setProp inst "type" (JSValue.str kind)
  let withStack := setProp withType "stack" (JSValue.str stack)
  JSValue.obj (extra.foldl (fun ps kv => setProp ps kv.1 kv.2) withStack)

/-- The error built by the `PARENT_MESSAGE_SETUP_ERROR` branch:
`new Error('Error when calling setup: ' + message)` with `.type = kind` and
`.stack = stack` assigned afterwards. -/
def setupErrorValue (kind message stack : String) : JSValue :=
  let base := [("name", JSValue.str "Error"),
               ("message", JSValue.str ("Error when calling setup: " ++ message)),
               ("stack",
                JSValue.str (nativeStack "Error" ("Error when calling setup: " ++ message)))]
  JSValue.obj (setProp (setProp base "type" (JSValue.str kind)) "stack" (JSValue.str stack))

/-- `ExperimentalWorker.onMessage`: route a worker reply by tag.  `OK`
resolves the call with the result; `CLIENT_ERROR` resolves it with the raw
payload, or with the reconstructed error when the payload is an object —
unless `new Ctor(message)` itself throws, in which case the exception
escapes the handler and the call is not resolved; `SETUP_ERROR` resolves it
with a fresh setup error; any other tag throws a `TypeError`. -/
def onMessage : ParentMessage → Except Thrown (List Event)
  | ParentMessage.ok result => Except.ok [Event.processEnd JSValue.null result]
  | ParentMessage.clientError kind message stack extra =>
    match extra with
    | JSValue.obj fields =>
      match constructInstance kind message with
      | Except.error e => Except.error e
      | Except.ok inst =>
        Except.ok [Event.processEnd (assembleError inst kind stack fields)
          JSValue.null]
    | v => Except.ok [Event.processEnd v JSValue.null]
  | ParentMessage.setupError kind message stack =>
    Except.ok [Event.processEnd (setupErrorValue kind message stack) JSValue.null]
  | ParentMessage.unknown tag =>
    Except.error ⟨"TypeError", "Unexpected response from worker: " ++ toString tag⟩

/-- `true` when handling the message returns to the caller rather than
throwing (every reply except the unknown tag and the CLIENT_ERROR replies
whose kind names a non-constructable global function). -/
def handledOk (m : ParentMessage) : Bool :=
  match onMessage m with
  | Except.ok _ => true
  | Except.error _ => false

/-- The `INITIALIZE` message posted on every (re)start. -/
def initMessage (opts : WorkerOptions) : ChildMessage :=
  ChildMessage.init opts.workerPath opts.setupArgs

/-- The synthesized reply `initialize()` feeds to `onMessage` after retry
exhaustion: `[PARENT_MESSAGE_CLIENT_ERROR, error.name, error.message,
error.stack, \x7btype: 'WorkerError'\x7d]` for
`error = new Error('Call retries were exceeded')`. -/
def retriesExceededMsg : ParentMessage :=
  ParentMessage.clientError "Error" "Call retries were exceeded"
    (nativeStack "Error" "Call retries were exceeded")
    (JSValue.obj [("type", JSValue.str "WorkerError")])

/-- The error object the synthesized reply is reconstructed into: the kind
is 'Error', a global Error-family constructor, so construction succeeds and
the extra-field copy overwrites `type` with 'WorkerError'. -/
def retriesExceededError : JSValue :=
  assembleError (errorInstance "Error" "Call retries were exceeded") "Error"
    (nativeStack "Error" "Call retries were exceeded")
    [("type", JSValue.str "WorkerError")]

/-- `ExperimentalWorker.initialize` (named `initWorker` here): spawn a fresh
thread, post `INITIALIZE`, pre-increment `_retries`, and when the new value
exceeds `maxRetries` feed the synthesized `CLIENT_ERROR` reply through
`onMessage`. -/
def initWorker (opts : WorkerOptions) (s : WorkerState) :
    Except Thrown (WorkerState × List Event) :=
  let spawnEvents := [Event.spawn, Event.post (initMessage opts)]
  let retries' := jsInc s.retries
  let s' : WorkerState := ⟨some retries'⟩
  if jsGtNat retries' opts.maxRetries then
    match onMessage retriesExceededMsg with
    | Except.ok evs => Except.ok (s', spawnEvents ++ evs)
    | Except.error e => Except.error e
  else
    Except.ok (s', spawnEvents)

/-- `ExperimentalWorker.onExit`: respawn via `initialize()` on any non-zero
exit code, do nothing on a clean exit. -/
def onExit (opts : WorkerOptions) (s : WorkerState) (exitCode : Int) :
    Except Thrown (WorkerState × List Event) :=
  if exitCode ≠ 0 then initWorker opts s else Except.ok (s, [])

/-- `ExperimentalWorker.send`: invoke `onProcessStart`, store the completion
hook, set `_retries = 0`, and post the request — in that order. -/
def send (_s : WorkerState) (request : ChildMessage) : WorkerState × List Event :=
  ⟨⟨some (JSNum.int 0)⟩, [Event.processStart, Event.retryReset, Event.post request]⟩

/-- The constructor: store the options and call `initialize()` on a state
whose `_retries` field is still undefined. -/
def newWorker (opts : WorkerOptions) : Except Thrown (WorkerState × List Event) :=
  initWorker opts ⟨none⟩

/-- An external stimulus delivered to the worker's event handlers: a message
from the thread or an exit notification. -/
inductive ExtEvent where
  | message (m : ParentMessage)
  | exit (code : Int)

/-- Dispatch one external stimulus to the matching handler. -/
def step (opts : WorkerOptions) (s : WorkerState) :
    ExtEvent → Except Thrown (WorkerState × List Event)
  | ExtEvent.message m =>
    match onMessage m with
    | Except.ok evs => Except.ok (s, evs)
    | Except.error e => Except.error e
  | ExtEvent.exit code => onExit opts s code

/-- Run a sequence of external stimuli, accumulating the emitted events;
an uncaught throw aborts the run. -/
def run (opts : WorkerOptions) (s : WorkerState) :
    List ExtEvent → Except Thrown (WorkerState × List Event)
  | [] => Except.ok (s, [])
  | e :: rest =>
    match step opts s e with
    | Except.error err => Except.error err
    | Except.ok (s', evs) =>
      match run opts s' rest with
      | Except.error err => Except.error err
      | Except.ok (s'', evs') => Except.ok (s'', evs ++ evs')

/-- Recognizer for completion-hook invocations. -/
def isEnd : Event → Bool
  | Event.processEnd _ _ => true
  | _ => false

/-- Recognizer for dispatch-hook invocations. -/
def isStart : Event → Bool
  | Event.processStart => true
  | _ => false

/-- Recognizer for thread constructions. -/
def isSpawn : Event → Bool
  | Event.spawn => true
  | _ => false

/-- Number of completion-hook invocations in a trace. -/
def countEnds (evs : List Event) : Nat := (evs.filter isEnd).length

/-- Number of dispatch-hook invocations in a trace. -/
def countStarts (evs : List Event) : Nat := (evs.filter isStart).length

/-- Number of thread constructions in a trace. -/
def countSpawns (evs : List Event) : Nat := (evs.filter isSpawn).length

/-- Completion-hook invocations of a whole run (an aborted run counts the
events before the throw — zero, since a throw aborts before emitting). -/
def endsOfRun (r : Except Thrown (WorkerState × List Event)) : Nat :=
  match r with
  | Except.ok (_, evs) => countEnds evs
  | Except.error _ => 0

/-- Thread constructions of a whole run. -/
def spawnsOfRun (r : Except Thrown (WorkerState × List Event)) : Nat :=
  match r with
  | Except.ok (_, evs) => countSpawns evs
  | Except.error _ => 0

/-! ### Helper lemmas about properties -/

theorem getProp_setProp_same (ps : List (String × JSValue)) (k : String) (v : JSValue) :
    getProp (setProp ps k v) k = some v := by
  induction ps with
  | nil => simp [setProp, getProp]
  | cons p rest ih =>
    by_cases h : p.1 = k
    · simp [setProp, h, getProp]
    · simp [setProp, h, getProp, ih]

theorem getProp_setProp_other (ps : List (String × JSValue)) (k k' : String) (v : JSValue)
    (h : k' ≠ k) : getProp (setProp ps k v) k' = getProp ps k' := by
  have hne : ¬ k = k' := fun hh => h hh.symm
  induction ps with
  | nil => simp [setProp, getProp, hne]
  | cons p rest ih =>
    by_cases hp : p.1 = k
    · simp [setProp, hp, getProp, hne]
    · simp [setProp, hp, getProp, ih]

theorem getProp_foldl_notmem (extra : List (String × JSValue))
    (ps : List (String × JSValue)) (key : String)
    (h : ∀ kv ∈ extra, kv.1 ≠ key) :
    getProp (extra.foldl (fun a kv => setProp a kv.1 kv.2) ps) key = getProp ps key := by
  induction extra generalizing ps with
  | nil => simp
  | cons kv rest ih =>
    have hk : kv.1 ≠ key := h kv (by simp)
    have hrest : ∀ p ∈ rest, p.1 ≠ key := fun p hp => h p (by simp [hp])
    simp only [List.foldl_cons]
    rw [ih (setProp ps kv.1 kv.2) hrest, getProp_setProp_other ps kv.1 key kv.2 (fun hh => hk hh.symm)]

theorem getProp_foldl_mem (extra : List (String × JSValue))
    (ps : List (String × JSValue)) (k : String) (v : JSValue)
    (hnd : (extra.map Prod.fst).Nodup) (hmem : (k, v) ∈ extra) :
    getProp (extra.foldl (fun a kv => setProp a kv.1 kv.2) ps) k = some v := by
  induction extra generalizing ps with
  | nil => cases hmem
  | cons kv rest ih =>
    simp only [List.map_cons, List.nodup_cons] at hnd
    rcases List.mem_cons.mp hmem with hhead | htail
    · subst hhead
      simp only [List.foldl_cons]
      have hrest : ∀ p ∈ rest, p.1 ≠ k := by
        intro p hp hpk
        apply hnd.1
        show k ∈ List.map Prod.fst rest
        rw [← hpk]
        exact List.mem_map_of_mem Prod.fst hp
      rw [getProp_foldl_notmem rest (setProp ps k v) k hrest, getProp_setProp_same]
    · simp only [List.foldl_cons]
      exact ih (setProp ps kv.1 kv.2) hnd.2 htail

theorem countEnds_append (a b : List Event) :
    countEnds (a ++ b) = countEnds a + countEnds b := by
  simp [countEnds, List.filter_append]

theorem countStarts_append (a b : List Event) :
    countStarts (a ++ b) = countStarts a + countStarts b := by
  simp [countStarts, List.filter_append]

/-! ### Helper lemmas about the handlers -/

theorem onMessage_retriesExceeded :
    onMessage retriesExceededMsg =
      Except.ok [Event.processEnd retriesExceededError JSValue.null] := rfl

theorem initWorker_int_le (opts : WorkerOptions) (n : Nat) (h : n + 1 ≤ opts.maxRetries) :
    initWorker opts ⟨some (JSNum.int n)⟩ =
      Except.ok (⟨some (JSNum.int (n + 1))⟩,
        [Event.spawn, Event.post (initMessage opts)]) := by
  have hb : jsGtNat (JSNum.int (n + 1)) opts.maxRetries = false := by
    simp [jsGtNat]; omega
  simp [initWorker, jsInc, hb]

theorem initWorker_int_gt (opts : WorkerOptions) (n : Nat) (h : opts.maxRetries < n + 1) :
    initWorker opts ⟨some (JSNum.int n)⟩ =
      Except.ok (⟨some (JSNum.int (n + 1))⟩,
        [Event.spawn, Event.post (initMessage opts),
         Event.processEnd retriesExceededError JSValue.null]) := by
  have hb : jsGtNat (JSNum.int (n + 1)) opts.maxRetries = true := by
    simp [jsGtNat]; omega
  simp [initWorker, jsInc, hb, onMessage_retriesExceeded]

theorem initWorker_nan (opts : WorkerOptions) :
    initWorker opts ⟨some JSNum.nan⟩ =
      Except.ok (⟨some JSNum.nan⟩, [Event.spawn, Event.post (initMessage opts)]) := rfl

theorem initWorker_undef (opts : WorkerOptions) :
    initWorker opts ⟨none⟩ =
      Except.ok (⟨some JSNum.nan⟩, [Event.spawn, Event.post (initMessage opts)]) := rfl

theorem initWorker_isOk (opts : WorkerOptions) (s : WorkerState) :
    ∃ s' evs, initWorker opts s = Except.ok (s', evs) ∧
      countSpawns evs = 1 ∧ evs.head? = some Event.spawn := by
  by_cases hb : jsGtNat (jsInc s.retries) opts.maxRetries
  · exact ⟨⟨some (jsInc s.retries)⟩,
      [Event.spawn, Event.post (initMessage opts),
       Event.processEnd retriesExceededError JSValue.null],
      by simp [initWorker, hb, onMessage_retriesExceeded], by simp [countSpawns, isSpawn], rfl⟩
  · exact ⟨⟨some (jsInc s.retries)⟩, [Event.spawn, Event.post (initMessage opts)],
      by simp [initWorker, hb], by simp [countSpawns, isSpawn], rfl⟩

theorem onMessage_ok_events (m : ParentMessage) (evs : List Event)
    (h : onMessage m = Except.ok evs) :
    countStarts evs = 0 ∧ countEnds evs = 1 ∧ countSpawns evs = 0 := by
  cases m with
  | ok result => cases h; exact ⟨rfl, rfl, rfl⟩
  | clientError kind message stack extra =>
    cases extra with
    | obj fields =>
      simp only [onMessage] at h
      cases hci : constructInstance kind message with
      | error e => rw [hci] at h; cases h
      | ok inst =>
        rw [hci] at h
        dsimp only at h
        cases h
        exact ⟨rfl, rfl, rfl⟩
    | null => cases h; exact ⟨rfl, rfl, rfl⟩
    | undef => cases h; exact ⟨rfl, rfl, rfl⟩
    | bool b => cases h; exact ⟨rfl, rfl, rfl⟩
    | num n => cases h; exact ⟨rfl, rfl, rfl⟩
    | str s => cases h; exact ⟨rfl, rfl, rfl⟩
  | setupError kind message stack => cases h; exact ⟨rfl, rfl, rfl⟩
  | unknown tag => cases h

theorem onMessage_terminal_one_end (m : ParentMessage) (hok : handledOk m = true) :
    ∃ evs, onMessage m = Except.ok evs ∧ countEnds evs = 1 ∧ countStarts evs = 0 ∧
      countSpawns evs = 0 := by
  cases hm : onMessage m with
  | error e =>
    unfold handledOk at hok
    rw [hm] at hok
    dsimp only at hok
    cases hok
  | ok evs =>
    obtain ⟨h1, h2, h3⟩ := onMessage_ok_events m evs hm
    exact ⟨evs, rfl, h2, h1, h3⟩

theorem run_cons (opts : WorkerOptions) (s : WorkerState) (e : ExtEvent)
    (rest : List ExtEvent) :
    run opts s (e :: rest) =
      match step opts s e with
      | Except.error err => Except.error err
      | Except.ok (s', evs) =>
        match run opts s' rest with
        | Except.error err => Except.error err
        | Except.ok (s'', evs') => Except.ok (s'', evs ++ evs') := rfl

theorem run_append_ok (opts : WorkerOptions) (t1 : List ExtEvent) :
    ∀ (s s1 : WorkerState) (evs1 : List Event), run opts s t1 = Except.ok (s1, evs1) →
    ∀ t2 : List ExtEvent, run opts s (t1 ++ t2) =
      match run opts s1 t2 with
      | Except.error e => Except.error e
      | Except.ok (s2, evs2) => Except.ok (s2, evs1 ++ evs2) := by
  induction t1 with
  | nil =>
    intro s s1 evs1 h t2
    simp [run] at h
    obtain ⟨h1, h2⟩ := h
    subst h1
    subst h2
    simp only [List.nil_append]
    cases run opts s t2 with
    | error e => rfl
    | ok r => obtain ⟨s2, evs2⟩ := r; simp
  | cons e rest ih =>
    intro s s1 evs1 h t2
    rw [run_cons] at h
    cases hs : step opts s e with
    | error err => rw [hs] at h; cases h
    | ok r =>
      obtain ⟨s', evs⟩ := r
      rw [hs] at h
      dsimp only at h
      cases hr : run opts s' rest with
      | error err => rw [hr] at h; cases h
      | ok r' =>
        obtain ⟨s'', evs'⟩ := r'
        rw [hr] at h
        dsimp only at h
        simp only [Except.ok.injEq, Prod.mk.injEq] at h
        obtain ⟨h1, h2⟩ := h
        subst h1
        subst h2
        rw [List.cons_append, run_cons, hs]
        dsimp only
        rw [ih s' s'' evs' hr t2]
        cases run opts s'' t2 with
        | error e => rfl
        | ok r'' =>
          obtain ⟨s2, evs2⟩ := r''
          simp [List.append_assoc]

theorem step_exit_int_le (opts : WorkerOptions) (n : Nat) (c : Int)
    (hc : c ≠ 0) (h : n + 1 ≤ opts.maxRetries) :
    step opts ⟨some (JSNum.int n)⟩ (ExtEvent.exit c) =
      Except.ok (⟨some (JSNum.int (n + 1))⟩,
        [Event.spawn, Event.post (initMessage opts)]) := by
  simp [step, onExit, hc, initWorker_int_le opts n h]

theorem step_exit_int_gt (opts : WorkerOptions) (n : Nat) (c : Int)
    (hc : c ≠ 0) (h : opts.maxRetries < n + 1) :
    step opts ⟨some (JSNum.int n)⟩ (ExtEvent.exit c) =
      Except.ok (⟨some (JSNum.int (n + 1))⟩,
        [Event.spawn, Event.post (initMessage opts),
         Event.processEnd retriesExceededError JSValue.null]) := by
  simp [step, onExit, hc, initWorker_int_gt opts n h]

theorem run_exits_le (opts : WorkerOptions) (cs : List Int) :
    ∀ n : Nat, (∀ c ∈ cs, c ≠ 0) → n + cs.length ≤ opts.maxRetries →
    ∃ evs, run opts ⟨some (JSNum.int n)⟩ (cs.map ExtEvent.exit) =
      Except.ok (⟨some (JSNum.int (n + cs.length))⟩, evs) ∧ countEnds evs = 0 := by
  induction cs with
  | nil =>
    intro n _ _
    exact ⟨[], by simp [run], rfl⟩
  | cons c rest ih =>
    intro n hc hlen
    have hc0 : c ≠ 0 := hc c (by simp)
    have h1 : n + 1 ≤ opts.maxRetries := by simp at hlen; omega
    obtain ⟨evs, hrun, hcnt⟩ :=
      ih (n + 1) (fun d hd => hc d (by simp [hd]))
        (by simp at hlen ⊢; omega)
    have hlen' : n + 1 + rest.length = n + (rest.length + 1) := by omega
    rw [hlen'] at hrun
    refine ⟨[Event.spawn, Event.post (initMessage opts)] ++ evs, ?_, ?_⟩
    · simp only [List.map_cons, run, step_exit_int_le opts n c hc0 h1, hrun,
        List.length_cons]
    · rw [countEnds_append, hcnt]
      rfl

theorem run_exits_exhaust (opts : WorkerOptions) (cs : List Int) :
    ∀ n : Nat, (∀ c ∈ cs, c ≠ 0) → n ≤ opts.maxRetries →
    n + cs.length = opts.maxRetries + 1 →
    ∃ evs, run opts ⟨some (JSNum.int n)⟩ (cs.map ExtEvent.exit) =
      Except.ok (⟨some (JSNum.int (n + cs.length))⟩, evs) ∧ countEnds evs = 1 := by
  induction cs with
  | nil =>
    intro n _ hn hlen
    simp at hlen
    omega
  | cons c rest ih =>
    intro n hc hn hlen
    have hc0 : c ≠ 0 := hc c (by simp)
    cases rest with
    | nil =>
      have hM : opts.maxRetries < n + 1 := by simp at hlen; omega
      refine ⟨[Event.spawn, Event.post (initMessage opts),
        Event.processEnd retriesExceededError JSValue.null], ?_, rfl⟩
      rw [List.map_cons, List.map_nil, run_cons, step_exit_int_gt opts n c hc0 hM]
      dsimp only [run]
      simp
    | cons d rest' =>
      have h1 : n + 1 ≤ opts.maxRetries := by simp at hlen; omega
      obtain ⟨evs, hrun, hcnt⟩ :=
        ih (n + 1) (fun x hx => hc x (List.mem_cons_of_mem c hx)) h1
          (by simp at hlen ⊢; omega)
      refine ⟨[Event.spawn, Event.post (initMessage opts)] ++ evs, ?_, ?_⟩
      · rw [List.map_cons, run_cons, step_exit_int_le opts n c hc0 h1]
        dsimp only
        rw [hrun]
        dsimp only
        have heq : n + 1 + (d :: rest').length = n + ((d :: rest').length + 1) := by omega
        simp only [heq, List.length_cons]
        simp
        omega
      · rw [countEnds_append, hcnt]
        rfl

theorem run_exits_nan (opts : WorkerOptions) (cs : List Int) :
    ∃ evs, run opts ⟨some JSNum.nan⟩ (cs.map ExtEvent.exit) =
      Except.ok (⟨some JSNum.nan⟩, evs) ∧ countEnds evs = 0 := by
  induction cs with
  | nil => exact ⟨[], by simp [run], rfl⟩
  | cons c rest ih =>
    obtain ⟨evs, hrun, hcnt⟩ := ih
    have hstep0 : ∀ c0 : Int, c0 = 0 →
        step opts ⟨some JSNum.nan⟩ (ExtEvent.exit c0) =
          Except.ok (⟨some JSNum.nan⟩, []) := by
      intro c0 hc0
      simp [step, onExit, hc0]
    have hstepN : ∀ c0 : Int, c0 ≠ 0 →
        step opts ⟨some JSNum.nan⟩ (ExtEvent.exit c0) =
          Except.ok (⟨some JSNum.nan⟩, [Event.spawn, Event.post (initMessage opts)]) := by
      intro c0 hc0
      simp [step, onExit, hc0, initWorker_nan]
    by_cases hc : c = 0
    · refine ⟨evs, ?_, hcnt⟩
      rw [List.map_cons, run_cons, hstep0 c hc]
      dsimp only
      rw [hrun]
      dsimp only
      simp
    · refine ⟨[Event.spawn, Event.post (initMessage opts)] ++ evs, ?_, ?_⟩
      · rw [List.map_cons, run_cons, hstepN c hc]
        dsimp only
        rw [hrun]
      · rw [countEnds_append, hcnt]; rfl

theorem initWorker_no_starts (opts : WorkerOptions) (s : WorkerState)
    (s' : WorkerState) (evs : List Event)
    (h : initWorker opts s = Except.ok (s', evs)) : countStarts evs = 0 := by
  by_cases hb : jsGtNat (jsInc s.retries) opts.maxRetries
  · simp [initWorker, hb, onMessage_retriesExceeded] at h
    rw [← h.2]
    rfl
  · simp [initWorker, hb] at h
    rw [← h.2]
    rfl

theorem step_no_starts (opts : WorkerOptions) (s : WorkerState) (e : ExtEvent)
    (s' : WorkerState) (evs : List Event)
    (h : step opts s e = Except.ok (s', evs)) : countStarts evs = 0 := by
  cases e with
  | message m =>
    cases hm : onMessage m with
    | error err => simp [step, hm] at h
    | ok evs0 =>
      simp only [step, hm, Except.ok.injEq, Prod.mk.injEq] at h
      obtain ⟨h1, h2⟩ := h
      subst h2
      exact (onMessage_ok_events m evs0 hm).1
  | exit c =>
    by_cases hc : c = 0
    · simp [step, onExit, hc] at h
      obtain ⟨h1, h2⟩ := h
      subst h2
      rfl
    · simp only [step, onExit, if_pos hc] at h
      exact initWorker_no_starts opts s s' evs h

theorem run_no_starts (opts : WorkerOptions) (tr : List ExtEvent) :
    ∀ s s' evs, run opts s tr = Except.ok (s', evs) → countStarts evs = 0 := by
  induction tr with
  | nil =>
    intro s s' evs h
    simp [run] at h
    obtain ⟨h1, h2⟩ := h
    subst h2
    rfl
  | cons e rest ih =>
    intro s s' evs h
    rw [run_cons] at h
    cases hs : step opts s e with
    | error err => rw [hs] at h; cases h
    | ok r =>
      obtain ⟨s1, evs1⟩ := r
      rw [hs] at h
      dsimp only at h
      cases hr : run opts s1 rest with
      | error err => rw [hr] at h; cases h
      | ok r' =>
        obtain ⟨s2, evs2⟩ := r'
        rw [hr] at h
        dsimp only at h
        simp only [Except.ok.injEq, Prod.mk.injEq] at h
        obtain ⟨h1, h2⟩ := h
        subst h2
        rw [countStarts_append, step_no_starts opts s e s1 evs1 hs, ih s1 s2 evs2 hr]

/-! ### Claim theorems -/

/-- Claim C5: an incoming worker message whose tag is none of the recognized
`ParentMessage` tags (OK, CLIENT_ERROR, SETUP_ERROR) makes `onMessage` throw
a `TypeError` naming the unexpected tag.  No event is emitted, so the message
never resolves the current call and never triggers a retry; as a stimulus it
aborts the run instead of producing a reply or respawn. -/
theorem unknownTag_protocol_fatal (tag : Nat) :
    onMessage (ParentMessage.unknown tag) =
      Except.error ⟨"TypeError", "Unexpected response from worker: " ++ toString tag⟩ ∧
    (∀ (opts : WorkerOptions) (s : WorkerState),
      step opts s (ExtEvent.message (ParentMessage.unknown tag)) =
        Except.error ⟨"TypeError", "Unexpected response from worker: " ++ toString tag⟩) :=
  ⟨rfl, fun _ _ => rfl⟩

/-- Claim C8: `send` invokes the dispatch hook (`onProcessStart`), resets
`_retries` to zero, and posts the CALL request to the thread, in that order;
the event list records the source's statement order and the resulting state
holds the reset counter. -/
theorem send_start_reset_post (s : WorkerState) (request : ChildMessage) :
    send s request = (⟨some (JSNum.int 0)⟩,
      [Event.processStart, Event.retryReset, Event.post request]) ∧
    countStarts (send s request).2 = 1 :=
  ⟨rfl, rfl⟩

/-- Claim C10: a CLIENT_ERROR message whose extra-fields payload is `null` or
not an object undergoes no reconstruction: the raw payload value is passed
unchanged to the completion hook as the error. -/
theorem clientError_raw_passthrough (kind msg stk : String) (v : JSValue)
    (h : v.isObjVal = false) :
    onMessage (ParentMessage.clientError kind msg stk v) =
      Except.ok [Event.processEnd v JSValue.null] := by
  cases v with
  | obj fields => simp [JSValue.isObjVal] at h
  | null => rfl
  | undef => rfl
  | bool b => rfl
  | num n => rfl
  | str s => rfl

theorem clientError_raw_passthrough_witness :
    JSValue.null.isObjVal = false ∧
    onMessage (ParentMessage.clientError "Error" "boom" "stackline" JSValue.null) =
      Except.ok [Event.processEnd JSValue.null JSValue.null] :=
  ⟨rfl, clientError_raw_passthrough "Error" "boom" "stackline" JSValue.null rfl⟩

/-- Claim C6: `onExit` respawns via `initialize()` exactly when the exit was
not a clean shutdown: a zero exit code leaves state and trace untouched, any
non-zero code re-runs the spawn sequence, whose trace starts with the thread
construction. -/
theorem onExit_respawn_policy (opts : WorkerOptions) (s : WorkerState) (code : Int) :
    (code = 0 → onExit opts s code = Except.ok (s, [])) ∧
    (code ≠ 0 → onExit opts s code = initWorker opts s ∧
      ∃ s' evs, initWorker opts s = Except.ok (s', evs) ∧
        countSpawns evs = 1 ∧ evs.head? = some Event.spawn) := by
  constructor
  · intro h
    simp [onExit, h]
  · intro h
    exact ⟨by simp [onExit, h], initWorker_isOk opts s⟩

theorem onExit_respawn_policy_witness :
    onExit ⟨1, 1, "worker.js", []⟩ ⟨some (JSNum.int 0)⟩ 0 =
      Except.ok (⟨some (JSNum.int 0)⟩, []) ∧
    onExit ⟨1, 1, "worker.js", []⟩ ⟨some (JSNum.int 0)⟩ 1 =
      initWorker ⟨1, 1, "worker.js", []⟩ ⟨some (JSNum.int 0)⟩ :=
  ⟨(onExit_respawn_policy ⟨1, 1, "worker.js", []⟩ ⟨some (JSNum.int 0)⟩ 0).1 rfl,
   ((onExit_respawn_policy ⟨1, 1, "worker.js", []⟩ ⟨some (JSNum.int 0)⟩ 1).2
     (by decide)).1⟩

/-- Claim C3 (amended): a SETUP_ERROR message escalates immediately — the
handler builds `new Error('Error when calling setup: ' + message)` with the
message's kind as `type` and the message's stack, and invokes the caller's
completion hook at once, performing no respawn itself; no respawn loop runs
before escalation, regardless of how many retries remain. -/
theorem setupError_escalates_immediately (kind msg stk : String) :
    onMessage (ParentMessage.setupError kind msg stk) =
      Except.ok [Event.processEnd (setupErrorValue kind msg stk) JSValue.null] ∧
    getField (setupErrorValue kind msg stk) "message" =
      some (JSValue.str ("Error when calling setup: " ++ msg)) ∧
    getField (setupErrorValue kind msg stk) "type" = some (JSValue.str kind) ∧
    getField (setupErrorValue kind msg stk) "stack" = some (JSValue.str stk) ∧
    countEnds [Event.processEnd (setupErrorValue kind msg stk) JSValue.null] = 1 ∧
    countSpawns [Event.processEnd (setupErrorValue kind msg stk) JSValue.null] = 0 :=
  ⟨rfl, rfl, rfl, rfl, rfl, rfl⟩

/-- Counterexample to claim C3 as stated: with `maxRetries = 5` and a fresh
crash budget (`_retries = 0`, so retries plainly remain), the very first
SETUP_ERROR message already invokes the completion hook — one completion and
zero respawns — instead of being absorbed by a respawn loop until
`maxRetries` is exhausted. -/
theorem setupError_first_escalation_cex :
    run ⟨5, 1, "worker.js", []⟩ ⟨some (JSNum.int 0)⟩
      [ExtEvent.message (ParentMessage.setupError "Error" "boom" "stackline")] =
      Except.ok (⟨some (JSNum.int 0)⟩,
        [Event.processEnd (setupErrorValue "Error" "boom" "stackline") JSValue.null]) ∧
    countEnds [Event.processEnd (setupErrorValue "Error" "boom" "stackline")
      JSValue.null] = 1 ∧
    countSpawns [Event.processEnd (setupErrorValue "Error" "boom" "stackline")
      JSValue.null] = 0 :=
  ⟨rfl, rfl, rfl⟩

/-- Claim C1: when `_retries` holds a number `n` (as it does from the moment
a `send` reset it), `initialize()` increments it to `n + 1` and, exactly when
the incremented value exceeds `maxRetries`, feeds the synthesized
CLIENT_ERROR reply through the ordinary `onMessage` path, resolving the call
with an Error whose message is 'Call retries were exceeded' and whose `type`
field is 'WorkerError'.  The bound check follows the pre-increment, so from a
reset counter (`n = 0`) the synthesized error fires on the
(`maxRetries` + 1)-th consecutive `initialize()` and on no earlier one. -/
theorem initWorker_retry_semantics (opts : WorkerOptions) (n : Nat) (r : Option JSNum)
    (h : r = some (JSNum.int n)) :
    initWorker opts ⟨r⟩ =
      Except.ok (⟨some (JSNum.int (n + 1))⟩,
        if opts.maxRetries < n + 1 then
          [Event.spawn, Event.post (initMessage opts),
           Event.processEnd retriesExceededError JSValue.null]
        else [Event.spawn, Event.post (initMessage opts)]) ∧
    onMessage retriesExceededMsg =
      Except.ok [Event.processEnd retriesExceededError JSValue.null] ∧
    getField retriesExceededError "message" =
      some (JSValue.str "Call retries were exceeded") ∧
    getField retriesExceededError "type" = some (JSValue.str "WorkerError") ∧
    getField retriesExceededError "name" = some (JSValue.str "Error") := by
  subst h
  refine ⟨?_, rfl, rfl, rfl, rfl⟩
  by_cases hM : opts.maxRetries < n + 1
  · rw [initWorker_int_gt opts n hM, if_pos hM]
  · rw [initWorker_int_le opts n (by omega), if_neg hM]

theorem initWorker_retry_semantics_witness :
    initWorker ⟨1, 7, "worker.js", []⟩ ⟨some (JSNum.int 1)⟩ =
      Except.ok (⟨some (JSNum.int 2)⟩,
        [Event.spawn, Event.post (initMessage ⟨1, 7, "worker.js", []⟩),
         Event.processEnd retriesExceededError JSValue.null]) ∧
    getField retriesExceededError "type" = some (JSValue.str "WorkerError") := by
  have h := initWorker_retry_semantics ⟨1, 7, "worker.js", []⟩ 1
    (some (JSNum.int 1)) rfl
  exact ⟨by simpa using h.1, h.2.2.2.1⟩

/-- Claim C9: before the first `send`, the retry counter is never a number —
the constructor's `initialize()` increments an undefined field, yielding
`NaN`, `NaN` stays `NaN` under further increments, and `NaN > maxRetries` is
always false — so for every finite `maxRetries` and every sequence of
exit-driven respawns preceding the first dispatched call, the
retry-exhaustion branch is unreachable and the completion hook never
fires. -/
theorem retries_nan_before_first_send (opts : WorkerOptions) (cs : List Int) :
    ∃ s0 evs0, newWorker opts = Except.ok (s0, evs0) ∧
      s0.retries = some JSNum.nan ∧ countEnds evs0 = 0 ∧
      ∃ s1 evs1, run opts s0 (cs.map ExtEvent.exit) = Except.ok (s1, evs1) ∧
        s1.retries = some JSNum.nan ∧ countEnds evs1 = 0 := by
  obtain ⟨evs1, hrun, hcnt⟩ := run_exits_nan opts cs
  exact ⟨⟨some JSNum.nan⟩, [Event.spawn, Event.post (initMessage opts)],
    initWorker_undef opts, rfl, rfl, ⟨some JSNum.nan⟩, evs1, hrun, rfl, hcnt⟩

/-- Counterexample to claim C2 as stated: with `maxRetries = 0`, after one
`send` (one call; the crash budget is reset once), two consecutive non-zero
exits each run `initialize()`; both increments exceed the bound, so the
synthesized CLIENT_ERROR resolves the same call twice — the completion hook
fires twice with no intervening `send`. -/
theorem double_resolution_cex :
    countStarts (send ⟨some JSNum.nan⟩ (ChildMessage.call [])).2 = 1 ∧
    endsOfRun (run ⟨0, 1, "worker.js", []⟩
      (send ⟨some JSNum.nan⟩ (ChildMessage.call [])).1
      [ExtEvent.exit 1, ExtEvent.exit 1]) = 2 :=
  ⟨rfl, rfl⟩

/-- Claim C2 (amended): the dispatch hook fires exactly once per `send`, and
external worker events never fire it; the completion hook fires exactly once
for a call whose worker undergoes at most `maxRetries` non-zero exits
followed by one terminal reply whose handler succeeds, or exactly
`maxRetries` + 1 non-zero exits (retry exhaustion).  Exactly-once does not
hold for arbitrary event sequences: further non-zero exits after exhaustion
re-fire the hook, a clean mid-call exit fires it zero times, and a
CLIENT_ERROR whose kind names a non-constructable global function makes the
handler itself throw before the hook fires. -/
theorem call_resolution_discipline (opts : WorkerOptions) (cs : List Int)
    (m : ParentMessage) (s : WorkerState) (req : ChildMessage)
    (hc : ∀ c ∈ cs, c ≠ 0) (_hm : m.isTerminal = true)
    (hok : handledOk m = true) :
    countStarts (send s req).2 = 1 ∧
    (cs.length ≤ opts.maxRetries →
      endsOfRun (run opts (send s req).1
        (cs.map ExtEvent.exit ++ [ExtEvent.message m])) = 1) ∧
    (cs.length = opts.maxRetries + 1 →
      endsOfRun (run opts (send s req).1 (cs.map ExtEvent.exit)) = 1) ∧
    (∀ (tr : List ExtEvent) (s' : WorkerState) (evs : List Event),
      run opts (send s req).1 tr = Except.ok (s', evs) → countStarts evs = 0) := by
  have hsend : (send s req).1 = (⟨some (JSNum.int 0)⟩ : WorkerState) := rfl
  refine ⟨rfl, ?_, ?_, ?_⟩
  · intro hlen
    obtain ⟨evs0, hrun0, hcnt0⟩ := run_exits_le opts cs 0 hc (by omega)
    obtain ⟨evsm, hmok, hend1, _, _⟩ := onMessage_terminal_one_end m hok
    rw [hsend]
    rw [run_append_ok opts (cs.map ExtEvent.exit) ⟨some (JSNum.int 0)⟩
      ⟨some (JSNum.int (0 + cs.length))⟩ evs0 hrun0 [ExtEvent.message m]]
    have hmsg : run opts ⟨some (JSNum.int (0 + cs.length))⟩ [ExtEvent.message m] =
        Except.ok (⟨some (JSNum.int (0 + cs.length))⟩, evsm) := by
      rw [run_cons]
      simp [step, hmok, run]
    rw [hmsg]
    show countEnds (evs0 ++ evsm) = 1
    rw [countEnds_append, hcnt0, hend1]
  · intro hlen
    obtain ⟨evs, hrun, hcnt⟩ :=
      run_exits_exhaust opts cs 0 hc (by omega) (by omega)
    rw [hsend, hrun]
    exact hcnt
  · intro tr s' evs h
    exact run_no_starts opts tr (send s req).1 s' evs h

theorem call_resolution_discipline_witness :
    countStarts (send ⟨some JSNum.nan⟩ (ChildMessage.call [])).2 = 1 ∧
    endsOfRun (run ⟨1, 1, "worker.js", []⟩
      (send ⟨some JSNum.nan⟩ (ChildMessage.call [])).1
      (([1] : List Int).map ExtEvent.exit ++
        [ExtEvent.message (ParentMessage.ok JSValue.null)])) = 1 := by
  have h := call_resolution_discipline ⟨1, 1, "worker.js", []⟩ [1]
    (ParentMessage.ok JSValue.null) ⟨some JSNum.nan⟩ (ChildMessage.call [])
    (by decide) rfl rfl
  exact ⟨h.1, h.2.1 (by decide)⟩

/-! ### The CLIENT_ERROR reconstruction, by constructor class -/

theorem constructInstance_errCtor (kind msg : String)
    (h : ctorBehavior kind = CtorBehavior.errorCtor) :
    constructInstance kind msg = Except.ok (errorInstance kind msg) := by
  unfold constructInstance
  rw [h]

theorem constructInstance_fallback (kind msg : String)
    (h : ctorBehavior kind = CtorBehavior.fallbackError) :
    constructInstance kind msg = Except.ok (errorInstance "Error" msg) := by
  unfold constructInstance
  rw [h]

theorem onMessage_clientError_obj (kind msg stk : String)
    (extra inst : List (String × JSValue))
    (hinst : constructInstance kind msg = Except.ok inst) :
    onMessage (ParentMessage.clientError kind msg stk (JSValue.obj extra)) =
      Except.ok [Event.processEnd (assembleError inst kind stk extra)
        JSValue.null] := by
  simp only [onMessage, hinst]

theorem onMessage_clientError_obj_throw (kind msg stk : String)
    (extra : List (String × JSValue)) (e : Thrown)
    (hinst : constructInstance kind msg = Except.error e) :
    onMessage (ParentMessage.clientError kind msg stk (JSValue.obj extra)) =
      Except.error e := by
  simp only [onMessage, hinst]

theorem assembled_fields (ctorName kind msg stk : String)
    (extra : List (String × JSValue))
    (hnd : (extra.map Prod.fst).Nodup)
    (hmsg : ∀ kv ∈ extra, kv.1 ≠ "message")
    (hstk : ∀ kv ∈ extra, kv.1 ≠ "stack")
    (htyp : ∀ kv ∈ extra, kv.1 ≠ "type")
    (hnam : ∀ kv ∈ extra, kv.1 ≠ "name") :
    getField (assembleError (errorInstance ctorName msg) kind stk extra)
      "type" = some (JSValue.str kind) ∧
    getField (assembleError (errorInstance ctorName msg) kind stk extra)
      "message" = some (JSValue.str msg) ∧
    getField (assembleError (errorInstance ctorName msg) kind stk extra)
      "stack" = some (JSValue.str stk) ∧
    getField (assembleError (errorInstance ctorName msg) kind stk extra)
      "name" = some (JSValue.str ctorName) ∧
    (∀ k v, (k, v) ∈ extra →
      getField (assembleError (errorInstance ctorName msg) kind stk extra) k =
        some v) := by
  have hbase : assembleError (errorInstance ctorName msg) kind stk extra =
      JSValue.obj (extra.foldl (fun ps kv => setProp ps kv.1 kv.2)
        [("name", JSValue.str ctorName), ("message", JSValue.str msg),
         ("stack", JSValue.str stk), ("type", JSValue.str kind)]) := rfl
  refine ⟨?_, ?_, ?_, ?_, ?_⟩
  · rw [hbase]
    show getProp (extra.foldl (fun ps kv => setProp ps kv.1 kv.2)
      [("name", JSValue.str ctorName), ("message", JSValue.str msg),
       ("stack", JSValue.str stk), ("type", JSValue.str kind)]) "type" =
      some (JSValue.str kind)
    rw [getProp_foldl_notmem extra _ "type" htyp]
    rfl
  · rw [hbase]
    show getProp (extra.foldl (fun ps kv => setProp ps kv.1 kv.2)
      [("name", JSValue.str ctorName), ("message", JSValue.str msg),
       ("stack", JSValue.str stk), ("type", JSValue.str kind)]) "message" =
      some (JSValue.str msg)
    rw [getProp_foldl_notmem extra _ "message" hmsg]
    rfl
  · rw [hbase]
    show getProp (extra.foldl (fun ps kv => setProp ps kv.1 kv.2)
      [("name", JSValue.str ctorName), ("message", JSValue.str msg),
       ("stack", JSValue.str stk), ("type", JSValue.str kind)]) "stack" =
      some (JSValue.str stk)
    rw [getProp_foldl_notmem extra _ "stack" hstk]
    rfl
  · rw [hbase]
    show getProp (extra.foldl (fun ps kv => setProp ps kv.1 kv.2)
      [("name", JSValue.str ctorName), ("message", JSValue.str msg),
       ("stack", JSValue.str stk), ("type", JSValue.str kind)]) "name" =
      some (JSValue.str ctorName)
    rw [getProp_foldl_notmem extra _ "name" hnam]
    rfl
  · intro k v hkv
    rw [hbase]
    show getProp (extra.foldl (fun ps kv => setProp ps kv.1 kv.2)
      [("name", JSValue.str ctorName), ("message", JSValue.str msg),
       ("stack", JSValue.str stk), ("type", JSValue.str kind)]) k = some v
    exact getProp_foldl_mem extra _ k v hnd hkv

theorem step_clientError_no_spawn (kind msg stk : String) (v : JSValue)
    (opts : WorkerOptions) (st st' : WorkerState) (evs : List Event)
    (h : step opts st (ExtEvent.message (ParentMessage.clientError kind msg stk v)) =
      Except.ok (st', evs)) :
    st' = st ∧ countSpawns evs = 0 := by
  cases hm : onMessage (ParentMessage.clientError kind msg stk v) with
  | error e => simp [step, hm] at h
  | ok evs0 =>
    simp only [step, hm, Except.ok.injEq, Prod.mk.injEq] at h
    obtain ⟨h1, h2⟩ := h
    subst h2
    exact ⟨h1.symm,
      (onMessage_ok_events (ParentMessage.clientError kind msg stk v) evs0 hm).2.2⟩

/-- Claim C4 (amended): the reconstructed CLIENT_ERROR preserves the original
kind as the delivered object's `type`, and preserves the message, the stack,
the constructor name and every extra custom field, provided (a) the kind
names a global Error-family constructor (the constructor is then that global)
or no global function at all (then `Error` is the fallback), and (b) the
extra payload's keys avoid `type`, `message`, `stack` and `name`.  Outside
those conditions the code behaves differently: extra keys colliding with the
assigned properties overwrite them (the copy loop runs last), kinds naming
non-Error global constructors deliver an instance without `message` or
`name`, and kinds naming non-constructable global functions make the handler
itself throw. -/
theorem clientError_reconstruction_preserves (kind msg stk : String)
    (extra : List (String × JSValue))
    (hclass : ctorBehavior kind = CtorBehavior.errorCtor ∨
      ctorBehavior kind = CtorBehavior.fallbackError)
    (hnd : (extra.map Prod.fst).Nodup)
    (hm : ∀ kv ∈ extra, kv.1 ≠ "message")
    (hs : ∀ kv ∈ extra, kv.1 ≠ "stack")
    (ht : ∀ kv ∈ extra, kv.1 ≠ "type")
    (hn : ∀ kv ∈ extra, kv.1 ≠ "name") :
    ∃ ctorName,
      (ctorBehavior kind = CtorBehavior.errorCtor → ctorName = kind) ∧
      (ctorBehavior kind = CtorBehavior.fallbackError → ctorName = "Error") ∧
      constructInstance kind msg = Except.ok (errorInstance ctorName msg) ∧
      onMessage (ParentMessage.clientError kind msg stk (JSValue.obj extra)) =
        Except.ok [Event.processEnd
          (assembleError (errorInstance ctorName msg) kind stk extra)
          JSValue.null] ∧
      getField (assembleError (errorInstance ctorName msg) kind stk extra)
        "type" = some (JSValue.str kind) ∧
      getField (assembleError (errorInstance ctorName msg) kind stk extra)
        "message" = some (JSValue.str msg) ∧
      getField (assembleError (errorInstance ctorName msg) kind stk extra)
        "stack" = some (JSValue.str stk) ∧
      getField (assembleError (errorInstance ctorName msg) kind stk extra)
        "name" = some (JSValue.str ctorName) ∧
      (∀ k v, (k, v) ∈ extra →
        getField (assembleError (errorInstance ctorName msg) kind stk extra) k =
          some v) := by
  cases hclass with
  | inl h =>
    have hinst := constructInstance_errCtor kind msg h
    refine ⟨kind, fun _ => rfl, ?_, hinst,
      onMessage_clientError_obj kind msg stk extra (errorInstance kind msg) hinst,
      (assembled_fields kind kind msg stk extra hnd hm hs ht hn).1,
      (assembled_fields kind kind msg stk extra hnd hm hs ht hn).2.1,
      (assembled_fields kind kind msg stk extra hnd hm hs ht hn).2.2.1,
      (assembled_fields kind kind msg stk extra hnd hm hs ht hn).2.2.2.1,
      (assembled_fields kind kind msg stk extra hnd hm hs ht hn).2.2.2.2⟩
    intro hf
    rw [h] at hf
    cases hf
  | inr h =>
    have hinst := constructInstance_fallback kind msg h
    refine ⟨"Error", ?_, fun _ => rfl, hinst,
      onMessage_clientError_obj kind msg stk extra (errorInstance "Error" msg) hinst,
      (assembled_fields "Error" kind msg stk extra hnd hm hs ht hn).1,
      (assembled_fields "Error" kind msg stk extra hnd hm hs ht hn).2.1,
      (assembled_fields "Error" kind msg stk extra hnd hm hs ht hn).2.2.1,
      (assembled_fields "Error" kind msg stk extra hnd hm hs ht hn).2.2.2.1,
      (assembled_fields "Error" kind msg stk extra hnd hm hs ht hn).2.2.2.2⟩
    intro hf
    rw [h] at hf
    cases hf

/-- Counterexample to claim C4 as stated: a CLIENT_ERROR message whose extra
payload itself carries a `type` field.  The copy loop runs after
`error.type = kind` was assigned, so the delivered error's `type` is the
extra field's value 'haha', not the message's kind 'Error'. -/
theorem clientError_type_overwritten_cex :
    onMessage (ParentMessage.clientError "Error" "m" "st"
      (JSValue.obj [("type", JSValue.str "haha")])) =
      Except.ok [Event.processEnd (JSValue.obj
        [("name", JSValue.str "Error"), ("message", JSValue.str "m"),
         ("stack", JSValue.str "st"), ("type", JSValue.str "haha")])
        JSValue.null] ∧
    getField (JSValue.obj
        [("name", JSValue.str "Error"), ("message", JSValue.str "m"),
         ("stack", JSValue.str "st"), ("type", JSValue.str "haha")]) "type" =
      some (JSValue.str "haha") ∧
    ("haha" : String) ≠ "Error" :=
  ⟨rfl, rfl, by decide⟩

theorem clientError_reconstruction_preserves_witness :
    onMessage (ParentMessage.clientError "TypeError" "boom" "stackline"
      (JSValue.obj [("fileName", JSValue.str "a.js")])) =
      Except.ok [Event.processEnd (assembleError
        (errorInstance "TypeError" "boom") "TypeError" "stackline"
        [("fileName", JSValue.str "a.js")]) JSValue.null] ∧
    getField (assembleError (errorInstance "TypeError" "boom") "TypeError"
      "stackline" [("fileName", JSValue.str "a.js")]) "message" =
      some (JSValue.str "boom") ∧
    getField (assembleError (errorInstance "TypeError" "boom") "TypeError"
      "stackline" [("fileName", JSValue.str "a.js")]) "name" =
      some (JSValue.str "TypeError") ∧
    getField (assembleError (errorInstance "TypeError" "boom") "TypeError"
      "stackline" [("fileName", JSValue.str "a.js")]) "fileName" =
      some (JSValue.str "a.js") := by
  obtain ⟨cn, hcn, _, _, honM, _, hmsg, _, hname, hext⟩ :=
    clientError_reconstruction_preserves "TypeError" "boom" "stackline"
      [("fileName", JSValue.str "a.js")] (Or.inl rfl) (by simp) (by decide)
      (by decide) (by decide) (by decide)
  have hcneq := hcn rfl
  subst hcneq
  exact ⟨honM, hmsg, hname,
    hext "fileName" (JSValue.str "a.js") (List.Mem.head _)⟩

/-- Counterexample to claim C7 as stated: a CLIENT_ERROR whose kind is
'Symbol'.  `global.Symbol` is a function, so the source takes the
`NativeCtor` branch, and `new Symbol(message)` throws a TypeError inside the
handler before `_onProcessEnd` is reached — the call resolves zero times, so
"resolves with a ClientError carrying the original message" fails. -/
theorem clientError_symbol_throws_cex :
    onMessage (ParentMessage.clientError "Symbol" "m" "st" (JSValue.obj [])) =
      Except.error ⟨"TypeError", "Symbol is not a constructor"⟩ ∧
    endsOfRun (run ⟨3, 1, "worker.js", []⟩ ⟨some (JSNum.int 0)⟩
      [ExtEvent.message (ParentMessage.clientError "Symbol" "m" "st"
        (JSValue.obj []))]) = 0 :=
  ⟨rfl, rfl⟩

/-- Claim C7 (amended): a CLIENT_ERROR reply whose kind names a global
Error-family constructor or no global function (the `Error` fallback — the
ordinary case of a thrown error) resolves the call exactly once with the
reconstructed error carrying the original message (stated for payloads that
do not shadow `message` with an extra field); and receiving a CLIENT_ERROR
never causes a respawn for any kind or payload: whenever the handler
returns, it has constructed no thread and left the worker state untouched —
`onMessage` never calls `initialize()`.  Kinds naming non-constructable
global functions make the handler itself throw (the call does not resolve),
and kinds naming non-Error global constructors deliver a value without a
`message` property. -/
theorem clientError_resolves_without_respawn (kind msg stk : String)
    (extra : List (String × JSValue))
    (hclass : ctorBehavior kind = CtorBehavior.errorCtor ∨
      ctorBehavior kind = CtorBehavior.fallbackError)
    (hm : ∀ kv ∈ extra, kv.1 ≠ "message") :
    ∃ inst, constructInstance kind msg = Except.ok inst ∧
      onMessage (ParentMessage.clientError kind msg stk (JSValue.obj extra)) =
        Except.ok [Event.processEnd (assembleError inst kind stk extra)
          JSValue.null] ∧
      getField (assembleError inst kind stk extra) "message" =
        some (JSValue.str msg) ∧
      countEnds [Event.processEnd (assembleError inst kind stk extra)
        JSValue.null] = 1 ∧
      countSpawns [Event.processEnd (assembleError inst kind stk extra)
        JSValue.null] = 0 ∧
      (∀ (v : JSValue) (opts : WorkerOptions) (st st' : WorkerState)
        (evs : List Event),
        step opts st (ExtEvent.message (ParentMessage.clientError kind msg stk v)) =
          Except.ok (st', evs) → st' = st ∧ countSpawns evs = 0) := by
  have hfield : ∀ ctorName : String,
      getField (assembleError (errorInstance ctorName msg) kind stk extra)
        "message" = some (JSValue.str msg) := by
    intro ctorName
    show getProp (extra.foldl (fun ps kv => setProp ps kv.1 kv.2)
      (setProp (setProp (errorInstance ctorName msg) "type" (JSValue.str kind))
        "stack" (JSValue.str stk))) "message" = some (JSValue.str msg)
    rw [getProp_foldl_notmem extra _ "message" hm]
    rfl
  cases hclass with
  | inl h =>
    have hinst := constructInstance_errCtor kind msg h
    exact ⟨errorInstance kind msg, hinst,
      onMessage_clientError_obj kind msg stk extra (errorInstance kind msg) hinst,
      hfield kind, rfl, rfl,
      fun v opts st st' evs hstep =>
        step_clientError_no_spawn kind msg stk v opts st st' evs hstep⟩
  | inr h =>
    have hinst := constructInstance_fallback kind msg h
    exact ⟨errorInstance "Error" msg, hinst,
      onMessage_clientError_obj kind msg stk extra (errorInstance "Error" msg) hinst,
      hfield "Error", rfl, rfl,
      fun v opts st st' evs hstep =>
        step_clientError_no_spawn kind msg stk v opts st st' evs hstep⟩

theorem clientError_resolves_without_respawn_witness :
    onMessage (ParentMessage.clientError "Error" "kaboom" "stk"
      (JSValue.obj [("code", JSValue.num 7)])) =
      Except.ok [Event.processEnd (assembleError (errorInstance "Error" "kaboom")
        "Error" "stk" [("code", JSValue.num 7)]) JSValue.null] ∧
    getField (assembleError (errorInstance "Error" "kaboom") "Error" "stk"
      [("code", JSValue.num 7)]) "message" = some (JSValue.str "kaboom") := by
  obtain ⟨inst, hinst, honM, hmsg, _, _, _⟩ :=
    clientError_resolves_without_respawn "Error" "kaboom" "stk"
      [("code", JSValue.num 7)] (Or.inl rfl) (by decide)
  have : inst = errorInstance "Error" "kaboom" := by
    have h2 := constructInstance_errCtor "Error" "kaboom" rfl
    rw [h2] at hinst
    cases hinst
    rfl
  subst this
  exact ⟨honM, hmsg⟩
